import Mathlib

/-!
Shallow embedding of the tutorial repository's decision-bearing logic:
the signals-app `Book` save/delete pipeline (`myApp/views.py`,
`myApp/signals.py`), the form-handling views (`formsApp/views.py`,
`formsApp/forms.py`), the ORM annotation query and custom manager
(`orm_app/views.py`, `orm_app/models.py`), and the three `setup_logger`
helpers. Databases are lists of records, the logging registry is a map
from names to logger states, and HTTP responses are strings naming the
template or the response body.
-/

/-! ## Case-insensitive substring containment (Django `icontains`) -/

/-- Does the needle occur at the head of the haystack? -/
def leadsWith : List Char → List Char → Bool
  | [], _ => true
  | _ :: _, [] => false
  | a :: as, b :: bs => a = b && leadsWith as bs

/-- Does the needle occur anywhere in the haystack? -/
def hasSub (need : List Char) : List Char → Bool
  | [] => need.isEmpty
  | c :: t => leadsWith need (c :: t) || hasSub need t

/-- Case-insensitive substring test: Django's `name__icontains=s` lookup. -/
def icontains (hay need : String) : Bool :=
  hasSub (need.data.map Char.toLower) (hay.data.map Char.toLower)

/-! ## Signals app (`section__3-django-advanced/DjangoSignals/myApp`) -/

namespace MyApp

/-- `myApp/models.py`: the signals-app `Book` model — `name`, `author`,
`detail`, no relations. -/
structure Book where
  name : String
  author : String
  detail : String
deriving DecidableEq

/-- `myApp/signals.py` `update_information`: the `pre_save` receiver for
`Book`; it overwrites the pending instance's `name` with the constant
string before the write happens. -/
def update_information (b : Book) : Book :=
  { b with name := "Corrupted Data" }

/-- The framework's save pipeline for a signals-app `Book`: run the
`pre_save` receivers on the instance, then persist it — appending on
create (`slot = none`) or replacing the record at an existing position on
update (`slot = some j`). The `post_save` receiver only logs, so it does
not appear. -/
def djangoSaveBook (db : List Book) (slot : Option Nat) (b0 : Book) :
    List Book :=
  let b := update_information b0
  match slot with
  | none => db ++ [b]
  | some j => db.set j b

/-- Modelled from the spec: `myApp/forms.py` is not among the sources;
§2 of the spec lists `BookForm` as a declarative input-validation schema
for the signals-app `Book`. Its fields mirror the model. -/
structure BookForm where
  name : String
  author : String
  detail : String
deriving DecidableEq

/-- Modelled from the spec: validity of a `BookForm` submission — every
field required (framework default), `name` capped at 50 characters and
`author` at 20 by the model schema. -/
def bookFormIsValid (f : BookForm) : Bool :=
  !f.name.isEmpty && f.name.length ≤ 50 &&
  !f.author.isEmpty && f.author.length ≤ 20 &&
  !f.detail.isEmpty

/-- `myApp/views.py` `save_book`: on a valid POST, save the form data
(running the save pipeline, hence the `pre_save` receiver) and answer
`FORM DATA SAVED`; otherwise re-render the form template. -/
def save_book (db : List Book) (isPost : Bool) (f : BookForm) :
    List Book × String :=
  if isPost then
    if bookFormIsValid f then
      (djangoSaveBook db none ⟨f.name, f.author, f.detail⟩, "FORM DATA SAVED")
    else
      (db, "myApp/book.html")
  else
    (db, "myApp/book.html")

/-- `myApp/views.py` `get_all_books_data`: only the GET branch returns; on
any other method the function falls off the end, i.e. yields `none`. -/
def get_all_books_data (db : List Book) (method : String) :
    Option (String × List Book) :=
  if method = "GET" then some ("myApp/BooksList.html", db) else none

/-- `myApp/views.py` `delete_books_by_name`: filter the books whose `name`
contains the requested substring case-insensitively, delete all of them in
one queryset operation (zero matches only logs), and always answer the
same response body. -/
def delete_books_by_name (db : List Book) (name : String) :
    List Book × String :=
  (db.filter (fun b => !icontains b.name name),
   "All the requested books deleted")

end MyApp

/-! ## Forms app (`section__1-djnago-basics/django_forms_project/formsApp`) -/

namespace FormsApp

/-- The framework's e-mail validity check, at the granularity the claims
need: exactly one `@`, a non-empty local part, and a domain that is
non-empty and contains a dot. -/
def emailOk (s : String) : Bool :=
  let cs := s.data
  let loc := cs.takeWhile (· ≠ '@')
  let dom := (cs.dropWhile (· ≠ '@')).tail
  cs.count '@' = 1 && !loc.isEmpty && !dom.isEmpty && dom.contains '.'

/-- The data of one `ContactForm` submission (`formsApp/forms.py`):
`name`, `email`, `message`, all required. -/
structure ContactData where
  name : String
  email : String
  message : String
deriving DecidableEq

/-- `ContactForm.is_valid`: `name` required with `max_length=100`,
`email` a valid e-mail, `message` required. -/
def contactFormIsValid (c : ContactData) : Bool :=
  !c.name.isEmpty && c.name.length ≤ 100 &&
  emailOk c.email && !c.message.isEmpty

/-- `formsApp/views.py` `contact_view`: on a valid POST it logs and
renders the success template — it saves nothing, so the record store
passes through untouched on every path. -/
def contact_view (db : List ContactData) (isPost : Bool) (c : ContactData) :
    List ContactData × String :=
  if isPost then
    if contactFormIsValid c then (db, "formsApp/contact_success.html")
    else (db, "formsApp/contact.html")
  else (db, "formsApp/contact.html")

/-- `formsApp/forms.py` `PersonForm.CHOICES`: the allowed profession
keys. -/
def CHOICES : List (String × String) :=
  [("tester", "Test Engineer"), ("dev", "Developer"),
   ("devops", "Dev Ops"), ("sm", "Scrum Master")]

/-- `django.core.validators.MaxValueValidator(limit)`: a value passes iff
it does not exceed the limit. -/
def MaxValueValidator (limit : Int) (v : Int) : Bool :=
  v ≤ limit

/-- The validator list on `PersonForm.age`: only
`MaxValueValidator(120)`. -/
def ageValidators : List (Int → Bool) :=
  [MaxValueValidator 120]

/-- The data of one `PersonForm` submission. -/
structure PersonData where
  name : String
  location : String
  age : Int
  profession : String
deriving DecidableEq

/-- Validity of the `PersonForm` fields other than `age`: `name` and
`location` required with `max_length=50`, `profession` required and one
of the `CHOICES` keys. -/
def personOtherFieldsValid (p : PersonData) : Bool :=
  !p.name.isEmpty && p.name.length ≤ 50 &&
  !p.location.isEmpty && p.location.length ≤ 50 &&
  (CHOICES.map Prod.fst).contains p.profession

/-- `PersonForm.is_valid`: the other fields pass and `age` passes every
validator attached to the field. -/
def personFormIsValid (p : PersonData) : Bool :=
  personOtherFieldsValid p && ageValidators.all (fun f => f p.age)

/-- `formsApp/views.py` `person_view`: on a valid POST it logs the
cleaned data and answers a plain confirmation — it persists nothing. -/
def person_view (isPost : Bool) (p : PersonData) : String :=
  if isPost then
    if personFormIsValid p then "The form data received and cleaned."
    else "formsApp/person.html"
  else "formsApp/person.html"

end FormsApp

/-! ## ORM app (`section__1-djnago-basics/django_orm_project/orm_app`) -/

namespace OrmApp

/-- `orm_app/models.py` `Author`: `name`, `email`, plus the primary
key. -/
structure Author where
  id : Nat
  name : String
  email : String
deriving DecidableEq

/-- A calendar date, as much of `DateField` as the claims need. -/
structure DateRec where
  year : Nat
  month : Nat
  day : Nat
deriving DecidableEq

/-- `orm_app/models.py` `Book`: `title`, `publication_date`, and the
foreign key to its `Author`. -/
structure Book where
  title : String
  publication_date : DateRec
  author_id : Nat
deriving DecidableEq

/-- The ORM database of the app: the `Author` and `Book` tables. -/
structure OrmDb where
  authors : List Author
  books : List Book
deriving DecidableEq

/-- `orm_app/models.py` `BookManager.published_after`: filter on
`publication_date__year__gt=year`, i.e. keep exactly the books whose
publication year is strictly greater. -/
def published_after (books : List Book) (year : Nat) : List Book :=
  books.filter (fun b => year < b.publication_date.year)

/-- `orm_app/views.py` `PracticeQueriesView.get`, annotation step:
`Author.objects.annotate(book_count=Count('book'))` — each author paired
with the number of `Book` rows whose foreign key points at it. -/
def annotate_book_count (db : OrmDb) : List (Author × Nat) :=
  db.authors.map
    (fun a => (a, (db.books.filter (fun b => b.author_id = a.id)).length))

/-- The whole query of the view as a state transformer: it only reads, so
it returns the annotation alongside the untouched database. -/
def practiceQueriesGet (db : OrmDb) : List (Author × Nat) × OrmDb :=
  (annotate_book_count db, db)

end OrmApp

/-! ## Logging helpers (the three `setup_logger` implementations) -/

namespace Logging

/-- A configured handler: console or file target, an optional own level,
and a format string. -/
inductive Handler where
  | console (level : Option Nat) (fmt : String)
  | file (path : String) (level : Option Nat) (fmt : String)
deriving DecidableEq

/-- The state the `logging` library keeps per logger name: its level and
its handler list. -/
structure LoggerState where
  level : Nat
  handlers : List Handler
deriving DecidableEq

/-- The process-wide logger registry: `logging.getLogger(name)` keyed by
name. -/
abbrev Registry : Type := String → LoggerState

/-- A registry in which no logger has been configured yet: every name
maps to a fresh logger (level `NOTSET = 0`, no handlers). -/
def emptyRegistry : Registry := fun _ => ⟨0, []⟩

/-- Store the (mutated) logger back under its name. -/
def store (reg : Registry) (name : String) (lg : LoggerState) : Registry :=
  fun n => if n = name then lg else reg n

/-- `INFO` level of the `logging` library. -/
def INFO : Nat := 20

/-- `ERROR` level of the `logging` library. -/
def ERROR : Nat := 40

/-- Format string shared by the two guarded helpers. -/
def fmtBasic : String :=
  "%(asctime)s - %(name)s - %(levelname)s - %(message)s"

/-- Format string of the formsApp helper. -/
def fmtForms : String :=
  "[%(asctime)s] %(levelname)s [%(name)s:%(lineno)s] %(message)s"

/-- `DjangoSignals/utils/loggers.py` `setup_logger`: fetch the logger,
set its level, build a console handler, and attach it only when the
logger has no handlers yet. -/
def setup_logger (reg : Registry) (name : String) (level : Nat) :
    Registry :=
  let lg := reg name
  let lg := { lg with level := level }
  let ch := Handler.console none fmtBasic
  let lg :=
    if lg.handlers.isEmpty then { lg with handlers := lg.handlers ++ [ch] }
    else lg
  store reg name lg

/-- `basic_concepts_project/utils/logging_utils.py` `setup_logger`: fetch
the logger, set its level, build a file handler at `level` and a console
handler at `ERROR`, and attach both only when the logger has no handlers
yet. -/
def setup_logger_basic (reg : Registry) (name : String) (log_file : String)
    (level : Nat) : Registry :=
  let lg := reg name
  let lg := { lg with level := level }
  let fh := Handler.file log_file (some level) fmtBasic
  let ch := Handler.console (some ERROR) fmtBasic
  let lg :=
    if lg.handlers.isEmpty then
      { lg with handlers := lg.handlers ++ [fh] ++ [ch] }
    else lg
  store reg name lg

/-- `django_forms_project/formsApp/utils.py` `setup_logger`: fetch the
logger, set its level, and attach a console handler unconditionally —
no guard on the existing handler list — then a file handler as well when
a log file is given. -/
def setup_logger_forms (reg : Registry) (name : String)
    (log_file : Option String) (level : Nat) : Registry :=
  let lg := reg name
  let lg := { lg with level := level }
  let ch := Handler.console none fmtForms
  let lg := { lg with handlers := lg.handlers ++ [ch] }
  let lg :=
    match log_file with
    | some f => { lg with handlers := lg.handlers ++ [Handler.file f none fmtForms] }
    | none => lg
  store reg name lg

end Logging

/-! ## Claims -/

/-- Claim C1: for every save of a signals-app `Book` (create or update)
and every caller-supplied name, the `pre_save` hook runs before
persistence, so the stored `name` equals the constant string
`Corrupted Data` and never the caller-supplied value: any record the save
adds or rewrites carries the constant name, and a create appends exactly
the submitted record with its `name` replaced. -/
theorem claim1_presave_forces_constant_name (db : List MyApp.Book)
    (slot : Option Nat) (b : MyApp.Book) :
    (∀ r ∈ MyApp.djangoSaveBook db slot b,
      r ∈ db ∨ r.name = "Corrupted Data") ∧
    MyApp.djangoSaveBook db none b =
      db ++ [⟨"Corrupted Data", b.author, b.detail⟩] := by
  constructor
  · intro r hr
    cases slot with
    | none =>
      simp only [MyApp.djangoSaveBook, List.mem_append, List.mem_singleton]
        at hr
      rcases hr with hr | hr
      · exact Or.inl hr
      · subst hr; exact Or.inr rfl
    | some j =>
      rcases List.mem_or_eq_of_mem_set hr with hr | hr
      · exact Or.inl hr
      · subst hr; exact Or.inr rfl
  · rfl

/-- Witness for C1: saving a `Book` with name `Dune` persists a record
whose stored name is the fixed override string. -/
theorem claim1_presave_forces_constant_name_witness :
    MyApp.djangoSaveBook [] none ⟨"Dune", "Frank Herbert", "Epic sci-fi"⟩ =
      [⟨"Corrupted Data", "Frank Herbert", "Epic sci-fi"⟩] ∧
    ((⟨"Corrupted Data", "Frank Herbert", "Epic sci-fi"⟩ : MyApp.Book) ∈
        ([] : List MyApp.Book) ∨
      (MyApp.Book.mk "Corrupted Data" "Frank Herbert" "Epic sci-fi").name =
        "Corrupted Data") := by
  refine ⟨(claim1_presave_forces_constant_name [] none _).2, ?_⟩
  exact (claim1_presave_forces_constant_name [] none
    ⟨"Dune", "Frank Herbert", "Epic sci-fi"⟩).1 _ (by decide)

/-- Claim C2: when at least one stored `Book` name contains the requested
substring case-insensitively, `delete_books_by_name` removes exactly the
matching records — every match is gone, every non-match survives
unchanged and in order — in the one queryset delete. -/
theorem claim2_delete_removes_exactly_matches (db : List MyApp.Book)
    (s : String) (_h : ∃ b ∈ db, icontains b.name s = true) :
    (∀ b ∈ db, icontains b.name s = true →
      b ∉ (MyApp.delete_books_by_name db s).1) ∧
    (∀ b, b ∈ (MyApp.delete_books_by_name db s).1 ↔
      b ∈ db ∧ icontains b.name s = false) ∧
    (MyApp.delete_books_by_name db s).1.Sublist db := by
  refine ⟨?_, ?_, ?_⟩
  · intro b _ hm hmem
    simp only [MyApp.delete_books_by_name, List.mem_filter,
      Bool.not_eq_true'] at hmem
    exact absurd hm (by simp [hmem.2])
  · intro b
    simp [MyApp.delete_books_by_name, List.mem_filter, Bool.not_eq_true']
  · exact List.filter_sublist db

/-- Witness for C2: with `Dune` and `Python 101` stored, deleting by
`dune` removes the matching `Dune` record. -/
theorem claim2_delete_removes_exactly_matches_witness :
    (∃ b ∈ ([⟨"Dune", "Frank Herbert", "sf"⟩,
        ⟨"Python 101", "Guido van Rossum", "pl"⟩] : List MyApp.Book),
      icontains b.name "dune" = true) ∧
    (⟨"Dune", "Frank Herbert", "sf"⟩ : MyApp.Book) ∉
      (MyApp.delete_books_by_name [⟨"Dune", "Frank Herbert", "sf"⟩,
        ⟨"Python 101", "Guido van Rossum", "pl"⟩] "dune").1 := by
  have h : ∃ b ∈ ([⟨"Dune", "Frank Herbert", "sf"⟩,
      ⟨"Python 101", "Guido van Rossum", "pl"⟩] : List MyApp.Book),
      icontains b.name "dune" = true := by decide
  exact ⟨h, (claim2_delete_removes_exactly_matches _ "dune" h).1 _
    (by decide) (by decide)⟩

/-- Claim C3: when no stored `Book` name matches the requested substring,
`delete_books_by_name` deletes nothing, raises no error, leaves the state
unchanged (hence is idempotent), and answers exactly the response any
deleting request gets, so the caller cannot tell the two cases apart. -/
theorem claim3_delete_zero_match_noop (db : List MyApp.Book) (s : String)
    (h : ∀ b ∈ db, icontains b.name s = false) :
    (MyApp.delete_books_by_name db s).1 = db ∧
    MyApp.delete_books_by_name (MyApp.delete_books_by_name db s).1 s =
      MyApp.delete_books_by_name db s ∧
    (MyApp.delete_books_by_name db s).2 =
      "All the requested books deleted" ∧
    ∀ db2 : List MyApp.Book,
      (MyApp.delete_books_by_name db2 s).2 =
        (MyApp.delete_books_by_name db s).2 := by
  have h1 : (MyApp.delete_books_by_name db s).1 = db := by
    simp only [MyApp.delete_books_by_name]
    exact List.filter_eq_self.mpr (fun b hb => by simp [h b hb])
  refine ⟨h1, ?_, rfl, fun db2 => rfl⟩
  rw [h1]

/-- Witness for C3: with only `Python 101` stored, deleting by `zzz`
keeps the state intact and still answers the deletion response. -/
theorem claim3_delete_zero_match_noop_witness :
    icontains "Python 101" "zzz" = false ∧
    (MyApp.delete_books_by_name
      [⟨"Python 101", "Guido van Rossum", "pl"⟩] "zzz").1 =
      [⟨"Python 101", "Guido van Rossum", "pl"⟩] ∧
    (MyApp.delete_books_by_name
      [⟨"Python 101", "Guido van Rossum", "pl"⟩] "zzz").2 =
      "All the requested books deleted" := by
  have h : ∀ b ∈ ([⟨"Python 101", "Guido van Rossum", "pl"⟩] :
      List MyApp.Book), icontains b.name "zzz" = false := by decide
  have hthm := claim3_delete_zero_match_noop _ "zzz" h
  exact ⟨by decide, hthm.1, hthm.2.2.1⟩

/-- Counterexample to C4 as stated: the contact form view, on a valid
submission, answers the success template yet persists nothing — starting
from an empty record store, the store is still empty afterwards, so no
record with the submitted values exists. -/
theorem claim4_contact_view_persists_nothing :
    FormsApp.contactFormIsValid
      ⟨"Alice", "alice@example.com", "Hello there"⟩ = true ∧
    FormsApp.contact_view [] true
      ⟨"Alice", "alice@example.com", "Hello there"⟩ =
      ([], "formsApp/contact_success.html") := by decide

/-- Claim C4 (amended): for every valid form submission the response
indicates success; the signals-app book form persists a record whose
`author` and `detail` equal the submitted values and whose `name` is the
fixed string; the contact and person form views persist no record. -/
theorem claim4_valid_submission_success (cdb : List FormsApp.ContactData)
    (c : FormsApp.ContactData) (p : FormsApp.PersonData)
    (bdb : List MyApp.Book) (f : MyApp.BookForm)
    (hc : FormsApp.contactFormIsValid c = true)
    (hp : FormsApp.personFormIsValid p = true)
    (hf : MyApp.bookFormIsValid f = true) :
    FormsApp.contact_view cdb true c =
      (cdb, "formsApp/contact_success.html") ∧
    FormsApp.person_view true p = "The form data received and cleaned." ∧
    MyApp.save_book bdb true f =
      (bdb ++ [⟨"Corrupted Data", f.author, f.detail⟩],
       "FORM DATA SAVED") := by
  refine ⟨?_, ?_, ?_⟩
  · simp [FormsApp.contact_view, hc]
  · simp [FormsApp.person_view, hp]
  · simp [MyApp.save_book, hf, MyApp.djangoSaveBook,
      MyApp.update_information]

/-- Witness for amended C4: concrete valid contact, person and book
submissions succeed, and only the book one persists — with the overridden
name. -/
theorem claim4_valid_submission_success_witness :
    FormsApp.contactFormIsValid
      ⟨"Bob", "bob@mail.org", "Hi"⟩ = true ∧
    FormsApp.personFormIsValid ⟨"Bob", "Pune", 30, "dev"⟩ = true ∧
    MyApp.bookFormIsValid ⟨"Dune", "Frank Herbert", "Epic"⟩ = true ∧
    FormsApp.contact_view [] true ⟨"Bob", "bob@mail.org", "Hi"⟩ =
      ([], "formsApp/contact_success.html") ∧
    FormsApp.person_view true ⟨"Bob", "Pune", 30, "dev"⟩ =
      "The form data received and cleaned." ∧
    MyApp.save_book [] true ⟨"Dune", "Frank Herbert", "Epic"⟩ =
      ([⟨"Corrupted Data", "Frank Herbert", "Epic"⟩],
       "FORM DATA SAVED") := by
  have hthm := claim4_valid_submission_success [] ⟨"Bob", "bob@mail.org", "Hi"⟩
    ⟨"Bob", "Pune", 30, "dev"⟩ [] ⟨"Dune", "Frank Herbert", "Epic"⟩
    (by decide) (by decide) (by decide)
  exact ⟨by decide, by decide, by decide, hthm.1, hthm.2.1,
    by simpa using hthm.2.2⟩

/-- Claim C5: the author-count annotation pairs every author, unchanged
and in order, with the number of `Book` rows whose foreign key points at
that author, and the query mutates nothing: the database afterwards is
the database before. -/
theorem claim5_annotation_counts_books (db : OrmApp.OrmDb) :
    ((OrmApp.practiceQueriesGet db).1.map Prod.fst = db.authors) ∧
    (∀ a n, (a, n) ∈ (OrmApp.practiceQueriesGet db).1 →
      n = (db.books.filter (fun b => b.author_id = a.id)).length) ∧
    (OrmApp.practiceQueriesGet db).2 = db := by
  refine ⟨?_, ?_, rfl⟩
  · simp [OrmApp.practiceQueriesGet, OrmApp.annotate_book_count,
      List.map_map, Function.comp_def]
  · intro a n hmem
    simp only [OrmApp.practiceQueriesGet, OrmApp.annotate_book_count,
      List.mem_map, Prod.mk.injEq] at hmem
    obtain ⟨a2, _, ha, hn⟩ := hmem
    subst ha
    exact hn.symm

/-- Witness for C5: an author with 3 related books is annotated with
count 3. -/
theorem claim5_annotation_counts_books_witness :
    (OrmApp.Author.mk 1 "J.K. Rowling" "jk@example.com", 3) ∈
      (OrmApp.practiceQueriesGet
        (OrmApp.OrmDb.mk [OrmApp.Author.mk 1 "J.K. Rowling" "jk@example.com"]
         [OrmApp.Book.mk "HP1" (OrmApp.DateRec.mk 1997 6 26) 1,
          OrmApp.Book.mk "HP2" (OrmApp.DateRec.mk 1998 7 2) 1,
          OrmApp.Book.mk "HP3" (OrmApp.DateRec.mk 1999 7 8) 1])).1 ∧
    3 = ((OrmApp.OrmDb.mk [OrmApp.Author.mk 1 "J.K. Rowling" "jk@example.com"]
         [OrmApp.Book.mk "HP1" (OrmApp.DateRec.mk 1997 6 26) 1,
          OrmApp.Book.mk "HP2" (OrmApp.DateRec.mk 1998 7 2) 1,
          OrmApp.Book.mk "HP3" (OrmApp.DateRec.mk 1999 7 8) 1]).books.filter
        (fun b => b.author_id = 1)).length := by
  refine ⟨by decide, ?_⟩
  exact (claim5_annotation_counts_books
    (OrmApp.OrmDb.mk [OrmApp.Author.mk 1 "J.K. Rowling" "jk@example.com"]
     [OrmApp.Book.mk "HP1" (OrmApp.DateRec.mk 1997 6 26) 1,
      OrmApp.Book.mk "HP2" (OrmApp.DateRec.mk 1998 7 2) 1,
      OrmApp.Book.mk "HP3" (OrmApp.DateRec.mk 1999 7 8) 1])).2.1
    (OrmApp.Author.mk 1 "J.K. Rowling" "jk@example.com") 3 (by decide)

/-- Counterexample to C6 as stated: the formsApp `setup_logger` attaches
a console handler on every call — after the first call the logger under
the name has one handler, after a second call with the same name it has
two, so the handler set does not stay unchanged after the first call. -/
theorem claim6_forms_setup_logger_grows_handlers :
    ((Logging.setup_logger_forms
        (Logging.setup_logger_forms Logging.emptyRegistry "formsApp.views"
          none Logging.INFO)
        "formsApp.views" none Logging.INFO) "formsApp.views").handlers.length
      = 2 ∧
    ((Logging.setup_logger_forms Logging.emptyRegistry "formsApp.views"
        none Logging.INFO) "formsApp.views").handlers.length = 1 ∧
    ¬ (((Logging.setup_logger_forms
        (Logging.setup_logger_forms Logging.emptyRegistry "formsApp.views"
          none Logging.INFO)
        "formsApp.views" none Logging.INFO) "formsApp.views").handlers =
      ((Logging.setup_logger_forms Logging.emptyRegistry "formsApp.views"
        none Logging.INFO) "formsApp.views").handlers) := by decide

/-- Claim C6 (amended): the DjangoSignals and basic-concepts
`setup_logger` helpers act on the per-name registry entry and guard
handler attachment on the handler list being empty, so a repeated call
with the same name leaves that logger's handler set unchanged; the
formsApp helper instead appends a fresh console handler on every call,
growing the handler set by one each time (without a log file). -/
theorem claim6_guarded_setup_logger_idempotent (reg : Logging.Registry)
    (name log_file : String) (l1 l2 : Nat) :
    ((Logging.setup_logger (Logging.setup_logger reg name l1) name l2)
        name).handlers =
      ((Logging.setup_logger reg name l1) name).handlers ∧
    ((Logging.setup_logger_basic
        (Logging.setup_logger_basic reg name log_file l1) name log_file l2)
        name).handlers =
      ((Logging.setup_logger_basic reg name log_file l1) name).handlers ∧
    ((Logging.setup_logger_forms
        (Logging.setup_logger_forms reg name none l1) name none l2)
        name).handlers.length =
      ((Logging.setup_logger_forms reg name none l1) name).handlers.length
        + 1 := by
  refine ⟨?_, ?_, ?_⟩
  · cases h : (reg name).handlers with
    | nil => simp [Logging.setup_logger, Logging.store, h]
    | cons a t => simp [Logging.setup_logger, Logging.store, h]
  · cases h : (reg name).handlers with
    | nil => simp [Logging.setup_logger_basic, Logging.store, h]
    | cons a t => simp [Logging.setup_logger_basic, Logging.store, h]
  · simp [Logging.setup_logger_forms, Logging.store]

/-- Claim C7: `BookManager.published_after y` returns exactly the books
whose publication year is strictly greater than `y` — a book published in
year `y` itself is excluded — and mutates nothing: the result is a
sublist of the table, every record kept verbatim. -/
theorem claim7_published_after_strictly_greater
    (books : List OrmApp.Book) (year : Nat) :
    (∀ b, b ∈ OrmApp.published_after books year ↔
      b ∈ books ∧ year < b.publication_date.year) ∧
    (∀ b ∈ books, b.publication_date.year = year →
      b ∉ OrmApp.published_after books year) ∧
    (OrmApp.published_after books year).Sublist books := by
  have hmem : ∀ b, b ∈ OrmApp.published_after books year ↔
      b ∈ books ∧ year < b.publication_date.year := by
    intro b
    simp [OrmApp.published_after, List.mem_filter]
  refine ⟨hmem, ?_, List.filter_sublist books⟩
  intro b _ hy hin
  have := ((hmem b).1 hin).2
  omega

/-- Witness for C7: with books from 1997 and 2000, `published_after 1997`
keeps only the 2000 book and drops the one published in 1997 itself. -/
theorem claim7_published_after_strictly_greater_witness :
    OrmApp.published_after
      [OrmApp.Book.mk "A" (OrmApp.DateRec.mk 1997 1 1) 1,
       OrmApp.Book.mk "B" (OrmApp.DateRec.mk 2000 1 1) 1] 1997 =
      [OrmApp.Book.mk "B" (OrmApp.DateRec.mk 2000 1 1) 1] ∧
    OrmApp.Book.mk "A" (OrmApp.DateRec.mk 1997 1 1) 1 ∉
      OrmApp.published_after
        [OrmApp.Book.mk "A" (OrmApp.DateRec.mk 1997 1 1) 1,
         OrmApp.Book.mk "B" (OrmApp.DateRec.mk 2000 1 1) 1] 1997 := by
  refine ⟨by decide, ?_⟩
  exact (claim7_published_after_strictly_greater
    [OrmApp.Book.mk "A" (OrmApp.DateRec.mk 1997 1 1) 1,
     OrmApp.Book.mk "B" (OrmApp.DateRec.mk 2000 1 1) 1] 1997).2.1
    (OrmApp.Book.mk "A" (OrmApp.DateRec.mk 1997 1 1) 1)
    (by decide) (by decide)

/-- Claim C8: a POST to `save_book` with invalid form data creates and
modifies nothing — the record store is returned as it was — and the view
answers the re-rendered form template, not the success response. -/
theorem claim8_invalid_post_saves_nothing (db : List MyApp.Book)
    (f : MyApp.BookForm) (h : MyApp.bookFormIsValid f = false) :
    MyApp.save_book db true f = (db, "myApp/book.html") := by
  simp [MyApp.save_book, h]

/-- Witness for C8: a submission with an empty `name` is invalid and
leaves the store untouched, answering the form template. -/
theorem claim8_invalid_post_saves_nothing_witness :
    MyApp.bookFormIsValid ⟨"", "Someone", "text"⟩ = false ∧
    MyApp.save_book [] true ⟨"", "Someone", "text"⟩ =
      ([], "myApp/book.html") :=
  ⟨by decide, claim8_invalid_post_saves_nothing [] _ (by decide)⟩

/-- Claim C9: `get_all_books_data` only returns inside its GET branch, so
on any other HTTP method it yields no response at all (`none`). -/
theorem claim9_non_get_returns_none (db : List MyApp.Book)
    (method : String) (h : method ≠ "GET") :
    MyApp.get_all_books_data db method = none := by
  simp [MyApp.get_all_books_data, h]

/-- Witness for C9: a POST to the listing view yields no response. -/
theorem claim9_non_get_returns_none_witness :
    "POST" ≠ "GET" ∧
    MyApp.get_all_books_data [] "POST" = none :=
  ⟨by decide, claim9_non_get_returns_none [] "POST" (by decide)⟩

/-- Claim C10: `PersonForm.age` carries only `MaxValueValidator(120)` and
no minimum, so whenever the other fields are valid, every integer age at
most 120 — zero and arbitrarily negative values included — passes
validation. -/
theorem claim10_age_only_max_validated (p : FormsApp.PersonData)
    (hother : FormsApp.personOtherFieldsValid p = true)
    (hage : p.age ≤ 120) :
    FormsApp.personFormIsValid p = true := by
  simp [FormsApp.personFormIsValid, FormsApp.ageValidators,
    FormsApp.MaxValueValidator, hother, hage]

/-- Witness for C10: age 0 and age -1000000 both pass when the other
fields are valid. -/
theorem claim10_age_only_max_validated_witness :
    FormsApp.personOtherFieldsValid ⟨"Bob", "Pune", 0, "dev"⟩ = true ∧
    (0 : Int) ≤ 120 ∧
    FormsApp.personFormIsValid ⟨"Bob", "Pune", 0, "dev"⟩ = true ∧
    FormsApp.personFormIsValid ⟨"Ann", "Delhi", -1000000, "tester"⟩ =
      true :=
  ⟨by decide, by decide,
   claim10_age_only_max_validated ⟨"Bob", "Pune", 0, "dev"⟩
     (by decide) (by decide),
   claim10_age_only_max_validated ⟨"Ann", "Delhi", -1000000, "tester"⟩
     (by decide) (by decide)⟩
